import Mathlib

/-!
# Verification of the `bw-bindings` session wrapper

A shallow embedding of `src/bw_bindings.py`: the `Session` class wrapping the
external Bitwarden CLI.  Subprocess behaviour is modelled by passing the
observed process result (captured stdout, stderr, exit code) as an explicit
argument; JSON decoding (`json.loads`) is modelled by an explicit parse
oracle `String → Option JValue`.  Each public operation additionally reports
the number of subprocesses it spawned.
-/

namespace BwBindings

/-- Result of one run of the external executable: captured stdout bytes
(decoded as text), stderr (decoded as text), and the exit code. -/
structure ProcResult where
  stdout : String
  stderr : String
  returncode : Int
deriving DecidableEq, Repr

/-- Python's `pat in s` substring test, on character lists:
`listIsPrefixOf p l` is `p` being an initial segment of `l`. -/
def listIsPrefixOf : List Char → List Char → Bool
  | [], _ => true
  | _ :: _, [] => false
  | a :: as, b :: bs => (a == b) && listIsPrefixOf as bs

/-- Containment `listContainsSub pat l` : `pat` occurs contiguously inside `l`. -/
def listContainsSub (pat : List Char) : List Char → Bool
  | [] => listIsPrefixOf pat []
  | b :: bs => listIsPrefixOf pat (b :: bs) || listContainsSub pat bs

/-- Python's `pat in s` on strings (`"API key client_secret" in err` etc.). -/
def containsSubstr (s pat : String) : Bool :=
  listContainsSub pat.data s.data

/-- Does the string end with a newline character? -/
def endsWithNewline (s : String) : Bool :=
  s.data.getLast? == some '\n'

/-- A JSON value, the result of a successful `json.loads`. -/
inductive JValue where
  | null
  | bool (b : Bool)
  | num (n : Int)
  | str (s : String)
  | arr (xs : List JValue)
  | obj (fields : List (String × JValue))

/-- A Python value that can appear in the argument list built by
`Session.list` (string flags, plus the raw `bool`/`None` values the code
places there for `trash`/`search`). -/
inductive PyVal where
  | str (s : String)
  | bool (b : Bool)
  | int (n : Int)
  | none
deriving DecidableEq, Repr

/-- Python truthiness of a `PyVal` (`if not value: continue`). -/
def PyVal.truthy : PyVal → Bool
  | .str s => !(s == "")
  | .bool b => b
  | .int n => !(n == 0)
  | .none => false

/-- An `Optional[str]` rendered as the value stored in `kwargs["search"]`. -/
def pyOptStr : Option String → PyVal
  | some s => .str s
  | Option.none => .none

/-- The errors raised by the bindings, one constructor per exception class
of the code (`BitwardenError`, `BitwardenPasswordError`,
`BitwardenNotLoggedInError`), plus the two uncaught standard exceptions the
code can let escape from `Session.list` / `get_item` / `get_template`. -/
inductive BwError where
  | bitwarden (msg : String)
  | password (msg : String)
  | notLoggedIn (msg : String)
  | assertionError
  | jsonDecodeError
deriving DecidableEq, Repr

/-- The `Session` object: the cached session key (absent before login),
the configured identity. -/
structure Session where
  key : Option String
  username : String
  passwd : Option String
deriving DecidableEq, Repr

/-- The message raised by the `_logged_in` guard for the method `name`. -/
def notLoggedInMsg (name : String) : String :=
  "Bitwarden cannot execute " ++ name ++
    " because session is not currently logged in."

/-- Message of the API-key branch of `Session.login`. -/
def apiKeyMsg : String :=
  "CLI must be authenticated with API key: " ++
    "https://bitwarden.com/help/article/cli-auth-challenges/"

/-- Message of the incorrect-password branch of `Session.login`: in the code
this is a plain (non-f) string literal, so the brace placeholder appears
verbatim. -/
def incorrectPasswordMsg : String :=
  "Password for \"\x7busername\x7d\" is incorrect. Try Again."

/-- Outcome of one `Session.login` call, one constructor per raise site of
the code plus success. -/
inductive LoginResult where
  | authModeError (msg : String)
  | incorrectPasswordError (msg : String)
  | commandError (msg : String)
  | success (key : String)
deriving DecidableEq, Repr

/-- Is the login outcome the success branch? -/
def LoginResult.isSuccess : LoginResult → Bool
  | .success _ => true
  | _ => false

/-- The error classification of `Session.login` over the child process
result, in the code's order: the `"API key client_secret"` test, then
`"Username or password is incorrect"`, then
`if not session_key or bw.returncode != 0`, else success carrying the
decoded stdout. -/
def classifyLogin (r : ProcResult) : LoginResult :=
  if containsSubstr r.stderr "API key client_secret" then
    .authModeError apiKeyMsg
  else if containsSubstr r.stderr "Username or password is incorrect" then
    .incorrectPasswordError incorrectPasswordMsg
  else if r.stdout = "" || !(r.returncode == 0) then
    .commandError ("Problem logging in: " ++ r.stderr)
  else
    .success r.stdout

/-- The password the code writes to the child's stdin: the explicit
argument if given, else the stored `self.passwd`, else the Pinentry result
with `"\n"` appended (`passwd = p.get_pin() + "\n"`). -/
def Session.resolvePasswd (s : Session) (arg : Option String)
    (prompted : String) : String :=
  match arg with
  | some p => p
  | Option.none =>
    match s.passwd with
    | some p => p
    | Option.none => prompted ++ "\n"

/-- The argument list of the login subprocess
(`f"login \x7bself.username\x7d --raw".split()`). -/
def Session.loginArgs (s : Session) : List String :=
  ["login", s.username, "--raw"]

/-- The method `Session.login`: classify the child result; on success store the decoded
stdout as the key, on any raise leave the session unchanged. -/
def Session.login (s : Session) (r : ProcResult) : LoginResult × Session :=
  match classifyLogin r with
  | .success k => (.success k, { s with key := some k })
  | res => (res, s)

/-- Python `str(x)` on an optional key (`f"logout --session \x7bself.key\x7d"`):
`None` prints as `"None"`. -/
def pyStrOpt : Option String → String
  | some s => s
  | Option.none => "None"

/-- The argument list of the logout subprocess. -/
def Session.logoutArgs (s : Session) : List String :=
  ["logout", "--session", pyStrOpt s.key]

/-- The method `Session.logout`: always spawns one subprocess (there is no
`_logged_in` guard on it); if stderr contains `"not logged in"` clear the
key and return, else on non-zero exit raise `BitwardenError` leaving the
session unchanged, else clear the key.  Returns (outcome, new session,
subprocess count). -/
def Session.logout (s : Session) (r : ProcResult) :
    Except BwError Unit × Session × Nat :=
  if containsSubstr r.stderr "not logged in" then
    (.ok (), { s with key := none }, 1)
  else if !(r.returncode == 0) then
    (.error (.bitwarden "Problem with logging out of session."), s, 1)
  else
    (.ok (), { s with key := none }, 1)

/-- The argument list of `Session._call`: the passed args with
`["--session", self.key]` appended. -/
def Session.callArgs (s : Session) (args : List PyVal) : List PyVal :=
  args ++ [.str "--session", pyOptStr s.key]

/-- The method `Session._call`: spawn, wait; on non-zero exit raise `BitwardenError`
carrying the argument list and decoded stderr, else return the raw reply. -/
def Session.call (s : Session) (args : List PyVal) (r : ProcResult) :
    Except BwError String :=
  if !(r.returncode == 0) then
    .error (.bitwarden ("Command: " ++ toString (s.callArgs args).length ++
      " args, StdErr: " ++ r.stderr))
  else
    .ok r.stdout

/-- What `Session.get` returns: the JSON-decoded reply when `json.loads`
succeeds, the raw decoded text otherwise. -/
inductive GetReply where
  | json (v : JValue)
  | raw (s : String)

/-- The method `Session.get`: the `_logged_in` guard (raises before spawning when the
key is absent), then `_call` on `["get", obj, ident]`, then an attempted
JSON decode falling back to the raw text.  Returns (outcome, subprocess
count). -/
def Session.get (s : Session) (obj ident : String) (r : ProcResult)
    (parse : String → Option JValue) : Except BwError GetReply × Nat :=
  match s.key with
  | none => (.error (.notLoggedIn (notLoggedInMsg "get")), 0)
  | some _ =>
    match s.call [.str "get", .str obj, .str ident] r with
    | .error e => (.error e, 1)
    | .ok reply =>
      match parse reply with
      | some v => (.ok (.json v), 1)
      | Option.none => (.ok (.raw reply), 1)

/-- The method `Session.get_item`: guard, then `self.get("item", ident)`, then
`assert isinstance(reply, dict)`. -/
def Session.get_item (s : Session) (ident : String) (r : ProcResult)
    (parse : String → Option JValue) :
    Except BwError (List (String × JValue)) × Nat :=
  match s.key with
  | none => (.error (.notLoggedIn (notLoggedInMsg "get_item")), 0)
  | some _ =>
    match s.get "item" ident r parse with
    | (.error e, n) => (.error e, n)
    | (.ok (.json (.obj fields)), n) => (.ok fields, n)
    | (.ok _, n) => (.error .assertionError, n)

/-- The method `Session.get_template`: guard, then `self.get("template", ident)`, then
`assert isinstance(reply, dict)`. -/
def Session.get_template (s : Session) (ident : String) (r : ProcResult)
    (parse : String → Option JValue) :
    Except BwError (List (String × JValue)) × Nat :=
  match s.key with
  | none => (.error (.notLoggedIn (notLoggedInMsg "get_template")), 0)
  | some _ =>
    match s.get "template" ident r parse with
    | (.error e, n) => (.error e, n)
    | (.ok (.json (.obj fields)), n) => (.ok fields, n)
    | (.ok _, n) => (.error .assertionError, n)

/-- The argument list built by `Session.list`: the extra keyword flags in
call order, then `kwargs["search"] = search` and `kwargs["trash"] = trash`
(dict insertion order puts them last), filtered by truthiness, each truthy
entry rendered as the pair `--<key>, value`. -/
def Session.listArgs (obj : String) (search : Option String) (trash : Bool)
    (extras : List (String × PyVal)) : List PyVal :=
  let kwargs := extras ++ [("search", pyOptStr search), ("trash", .bool trash)]
  let flags := kwargs.foldl
    (fun acc kv =>
      if kv.2.truthy then acc ++ [.str ("--" ++ kv.1), kv.2] else acc) []
  [.str "list", .str obj] ++ flags

/-- The method `Session.list`: guard, build args, `_call`, `json.loads` (an uncaught
`JSONDecodeError` if it fails), `assert isinstance(reply, list)`. -/
def Session.list (s : Session) (obj : String) (search : Option String)
    (trash : Bool) (extras : List (String × PyVal)) (r : ProcResult)
    (parse : String → Option JValue) :
    Except BwError (List JValue) × Nat :=
  match s.key with
  | none => (.error (.notLoggedIn (notLoggedInMsg "list")), 0)
  | some _ =>
    match s.call (Session.listArgs obj search trash extras) r with
    | .error e => (.error e, 1)
    | .ok reply =>
      match parse reply with
      | Option.none => (.error .jsonDecodeError, 1)
      | some (.arr xs) => (.ok xs, 1)
      | some _ => (.error .assertionError, 1)

/-- One externally observable step performed on a session: a login or a
logout call, together with what the child process returned. -/
inductive Event where
  | login (r : ProcResult)
  | logout (r : ProcResult)
deriving DecidableEq, Repr

/-- State transition of one event. -/
def stepEvent (s : Session) : Event → Session
  | .login r => (s.login r).2
  | .logout r => (s.logout r).2.1

/-- Run a trace of login/logout events from a starting session. -/
def runEvents (s : Session) (tr : List Event) : Session :=
  tr.foldl stepEvent s

/-- The key (if any) that an event stores: a successful login stores its
session key; everything else stores none. -/
def Event.setsKey : Event → Option String
  | .login r =>
    match classifyLogin r with
    | .success k => some k
    | _ => Option.none
  | .logout _ => Option.none

/-- Does the event clear the key?  Only the two clearing paths of `logout`
("not logged in" recovery, or success) do. -/
def Event.clears : Event → Bool
  | .logout r => containsSubstr r.stderr "not logged in" || r.returncode == 0
  | .login _ => false

/-- A session as freshly constructed: no key yet. -/
def sessionFresh : Session := { key := none, username := "user", passwd := none }

/-- A child-process result delivering a session key. -/
def procTok : ProcResult := { stdout := "session_key", stderr := "", returncode := 0 }

/-- A child-process result with the credential-rejection diagnostic. -/
def procIncorrect : ProcResult :=
  { stdout := "", stderr := "blahblah Username or password is incorrect. Try again.", returncode := 1 }

/-- A child-process result whose stderr carries both the API-key and the
credential-rejection diagnostics. -/
def procBoth : ProcResult :=
  { stdout := "", stderr := "API key client_secret needed; also Username or password is incorrect", returncode := 1 }

/-- A failing child-process result with an unclassified stderr. -/
def procOtherErr : ProcResult :=
  { stdout := "", stderr := "Some Other Unexpected Error.", returncode := 1 }

/-- A successful child-process result whose stdout carries a trailing
newline. -/
def procTokNl : ProcResult :=
  { stdout := "session_key\n", stderr := "", returncode := 0 }

/-- A failing child-process result whose stderr reports being logged out. -/
def procNotLoggedIn : ProcResult :=
  { stdout := "", stderr := "You are not logged in.", returncode := 1 }

/-- A silent, successful child-process result. -/
def procExitOk : ProcResult := { stdout := "", stderr := "", returncode := 0 }

/-- A session that holds an active key. -/
def sessionActive : Session :=
  { key := some "session_key", username := "user", passwd := none }

/-- A session configured for the user `alice`. -/
def sessionAlice : Session :=
  { key := none, username := "alice", passwd := none }

/-- A parse oracle on which `json.loads` always fails. -/
def parseNone : String → Option JValue := fun _ => Option.none

/-- A parse oracle on which `json.loads` yields the empty JSON array. -/
def parseArr : String → Option JValue := fun _ => some (.arr [])

/-- A parse oracle on which `json.loads` yields the empty JSON object. -/
def parseObj : String → Option JValue := fun _ => some (.obj [])

/-- C2: the login classification over (stderr, stdout payload, exit code)
is exhaustive and ordered: the `"API key client_secret"` test wins even
when other error substrings are present; then
`"Username or password is incorrect"`; then empty payload or non-zero exit
gives the generic error carrying the captured stderr; otherwise success. -/
theorem login_classification_ordered (r : ProcResult) :
    (containsSubstr r.stderr "API key client_secret" = true →
      classifyLogin r = .authModeError apiKeyMsg)
  ∧ (containsSubstr r.stderr "API key client_secret" = false →
     containsSubstr r.stderr "Username or password is incorrect" = true →
      classifyLogin r = .incorrectPasswordError incorrectPasswordMsg)
  ∧ (containsSubstr r.stderr "API key client_secret" = false →
     containsSubstr r.stderr "Username or password is incorrect" = false →
     (r.stdout = "" ∨ r.returncode ≠ 0) →
      classifyLogin r = .commandError ("Problem logging in: " ++ r.stderr))
  ∧ (containsSubstr r.stderr "API key client_secret" = false →
     containsSubstr r.stderr "Username or password is incorrect" = false →
     r.stdout ≠ "" → r.returncode = 0 →
      classifyLogin r = .success r.stdout) := by
  refine ⟨fun h1 => ?_, fun h1 h2 => ?_, fun h1 h2 h3 => ?_, fun h1 h2 h3 h4 => ?_⟩
  · simp [classifyLogin, h1]
  · simp [classifyLogin, h1, h2]
  · rcases h3 with h3 | h3 <;> simp [classifyLogin, h1, h2, h3]
  · simp [classifyLogin, h1, h2, h3, h4]

theorem login_classification_ordered_witness :
    classifyLogin procBoth = .authModeError apiKeyMsg
  ∧ classifyLogin procIncorrect = .incorrectPasswordError incorrectPasswordMsg
  ∧ classifyLogin procOtherErr =
      .commandError ("Problem logging in: " ++ procOtherErr.stderr)
  ∧ classifyLogin procTok = .success "session_key" :=
  ⟨(login_classification_ordered procBoth).1 (by decide),
   (login_classification_ordered procIncorrect).2.1 (by decide) (by decide),
   (login_classification_ordered procOtherErr).2.2.1 (by decide) (by decide)
     (Or.inl rfl),
   (login_classification_ordered procTok).2.2.2 (by decide) (by decide)
     (by decide) rfl⟩

/-- C9 (code bug): when login fails with the credential-rejection error for
the session configured with username `alice`, the raised message carries the
literal, unsubstituted `\x7busername\x7d` placeholder and does not contain the
actual username — the code uses a plain string where an f-string was
intended. -/
theorem incorrect_password_message_unsubstituted :
    (sessionAlice.login procIncorrect).1 =
      .incorrectPasswordError incorrectPasswordMsg
  ∧ containsSubstr incorrectPasswordMsg "\x7busername\x7d" = true
  ∧ containsSubstr incorrectPasswordMsg "alice" = false :=
  ⟨by decide, by decide, by decide⟩

/-- C4 counterexample: a successful login whose output payload ends in a
newline stores and returns the payload with the newline intact; no trailing
newline is trimmed. -/
theorem login_keeps_trailing_newline :
    sessionFresh.login procTokNl =
      (.success "session_key\n", { sessionFresh with key := some "session_key\n" })
  ∧ "session_key\n" ≠ "session_key" :=
  ⟨by decide, by decide⟩

/-- C4 amended: for every login that succeeds (non-empty payload, zero exit,
no matched error substring), the decoded output payload is stored verbatim
as the session's key and returned to the caller (no newline trimming). -/
theorem login_success_stores_stdout (s : Session) (r : ProcResult)
    (h1 : containsSubstr r.stderr "API key client_secret" = false)
    (h2 : containsSubstr r.stderr "Username or password is incorrect" = false)
    (h3 : r.stdout ≠ "") (h4 : r.returncode = 0) :
    s.login r = (.success r.stdout, { s with key := some r.stdout }) := by
  unfold Session.login
  simp [classifyLogin, h1, h2, h3, h4]

theorem login_success_stores_stdout_witness :
    sessionFresh.login procTok =
      (.success "session_key", { sessionFresh with key := some "session_key" }) :=
  login_success_stores_stdout sessionFresh procTok (by decide) (by decide)
    (by decide) rfl

/-- C5: for a logout on a session with an active token: a stderr containing
`"not logged in"` clears the key and returns without raising; a non-zero
exit with any other stderr raises the generic error; success clears the key
unconditionally. -/
theorem logout_classification (s : Session) (k : String) (hk : s.key = some k)
    (r : ProcResult) :
    (containsSubstr r.stderr "not logged in" = true →
      s.logout r = (.ok (), { s with key := none }, 1))
  ∧ (containsSubstr r.stderr "not logged in" = false → r.returncode ≠ 0 →
      s.logout r =
        (.error (.bitwarden "Problem with logging out of session."), s, 1))
  ∧ (containsSubstr r.stderr "not logged in" = false → r.returncode = 0 →
      s.logout r = (.ok (), { s with key := none }, 1)) := by
  refine ⟨fun h1 => ?_, fun h1 h2 => ?_, fun h1 h2 => ?_⟩
  · simp [Session.logout, h1]
  · simp [Session.logout, h1, h2]
  · simp [Session.logout, h1, h2]

theorem logout_classification_witness :
    sessionActive.logout procNotLoggedIn =
      (.ok (), { sessionActive with key := none }, 1)
  ∧ sessionActive.logout procOtherErr =
      (.error (.bitwarden "Problem with logging out of session."), sessionActive, 1)
  ∧ sessionActive.logout procExitOk =
      (.ok (), { sessionActive with key := none }, 1) :=
  ⟨(logout_classification sessionActive "session_key" rfl procNotLoggedIn).1
      (by decide),
   (logout_classification sessionActive "session_key" rfl procOtherErr).2.1
      (by decide) (by decide),
   (logout_classification sessionActive "session_key" rfl procExitOk).2.2
      (by decide) rfl⟩

/-- C10: when logout fails with the generic error (non-zero exit, stderr
not containing `"not logged in"`), the session — and in particular its
token — is left unchanged; the key is cleared only on the success or
`"not logged in"` recovery paths. -/
theorem logout_error_preserves_token (s : Session) (k : String)
    (hk : s.key = some k) (r : ProcResult)
    (h1 : containsSubstr r.stderr "not logged in" = false)
    (h2 : r.returncode ≠ 0) :
    (s.logout r).2.1 = s ∧ (s.logout r).2.1.key = some k
  ∧ (s.logout r).1 = .error (.bitwarden "Problem with logging out of session.") := by
  unfold Session.logout
  simp [h1, h2, hk]

theorem logout_error_preserves_token_witness :
    (sessionActive.logout procOtherErr).2.1 = sessionActive
  ∧ (sessionActive.logout procOtherErr).2.1.key = some "session_key"
  ∧ (sessionActive.logout procOtherErr).1 =
      .error (.bitwarden "Problem with logging out of session.") :=
  logout_error_preserves_token sessionActive "session_key" rfl procOtherErr
    (by decide) (by decide)

/-- C7 counterexample: an explicitly passed password is written to the
child's stdin verbatim; no newline is appended, so the payload does not end
with a newline. -/
theorem explicit_password_sent_without_newline :
    sessionFresh.resolvePasswd (some "hunter2") "prompted" = "hunter2"
  ∧ endsWithNewline "hunter2" = false :=
  ⟨rfl, by decide⟩

/-- C7 amended: the password written to the child's stdin is the explicit
argument verbatim if given, else the identity's stored password verbatim;
only when neither exists is the interactive prompt's result used, with a
trailing newline appended — so only the prompt path guarantees a
line-terminated secret. -/
theorem password_newline_only_on_prompt_path (s : Session) (p prompted : String) :
    (s.resolvePasswd (some p) prompted = p)
  ∧ (s.passwd = some p → s.resolvePasswd none prompted = p)
  ∧ (s.passwd = none → s.resolvePasswd none prompted = prompted ++ "\n"
      ∧ endsWithNewline (prompted ++ "\n") = true) := by
  refine ⟨rfl, fun h => ?_, fun h => ⟨?_, ?_⟩⟩
  · simp [Session.resolvePasswd, h]
  · simp [Session.resolvePasswd, h]
  · have hd : (prompted ++ "\n").data = prompted.data ++ ['\n'] := by
      rw [String.data_append]
    simp [endsWithNewline, hd, List.getLast?_concat]

theorem password_newline_only_on_prompt_path_witness :
    (sessionFresh.resolvePasswd (some "pw") "x" = "pw")
  ∧ (sessionFresh.resolvePasswd none "x" = "x" ++ "\n"
      ∧ endsWithNewline ("x" ++ "\n") = true) :=
  ⟨(password_newline_only_on_prompt_path sessionFresh "pw" "x").1,
   (password_newline_only_on_prompt_path sessionFresh "pw" "x").2.2 rfl⟩

/-- C8: for every `get` whose subprocess exits with code zero, the stdout is
first attempted as a JSON parse; a successful parse returns the structured
value, a failed parse returns the raw decoded text unchanged, and neither
case raises. -/
theorem get_parses_json_or_returns_raw (s : Session) (k obj ident : String)
    (hk : s.key = some k) (r : ProcResult) (hrc : r.returncode = 0)
    (parse : String → Option JValue) :
    (∀ v, parse r.stdout = some v →
      s.get obj ident r parse = (.ok (.json v), 1))
  ∧ (parse r.stdout = Option.none →
      s.get obj ident r parse = (.ok (.raw r.stdout), 1)) := by
  constructor
  · intro v hv
    simp [Session.get, Session.call, hk, hrc, hv]
  · intro hv
    simp [Session.get, Session.call, hk, hrc, hv]

theorem get_parses_json_or_returns_raw_witness :
    sessionActive.get "template" "item" procExitOk parseObj =
      (.ok (.json (.obj [])), 1)
  ∧ sessionActive.get "password" "xbox.com" procTok parseNone =
      (.ok (.raw "session_key"), 1) :=
  ⟨(get_parses_json_or_returns_raw sessionActive "session_key" "template"
      "item" rfl procExitOk rfl parseObj).1 (.obj []) rfl,
   (get_parses_json_or_returns_raw sessionActive "session_key" "password"
      "xbox.com" rfl procTok rfl parseNone).2 rfl⟩

/-- The logout of the code always spawns exactly one subprocess, on every
branch. -/
theorem logout_spawn_count (s : Session) (r : ProcResult) :
    (s.logout r).2.2 = 1 := by
  unfold Session.logout
  split
  · rfl
  · split <;> rfl

/-- C1 counterexample: a fresh session (no prior login) whose `logout` is
invoked spawns one subprocess and returns without raising any error — it
does not fail with the not-logged-in error and it does spawn a
subprocess. -/
theorem logout_unguarded_on_fresh_session :
    (sessionFresh.logout procExitOk).2.2 = 1
  ∧ (sessionFresh.logout procExitOk).1 = .ok () :=
  ⟨rfl, rfl⟩

/-- C1 amended: on a session whose token is absent, each of `get`,
`get_item`, `get_template` and `list` fails with the not-logged-in error
naming the method, spawning no subprocess; `logout`, however, carries no
such guard and spawns one subprocess regardless of the token. -/
theorem absent_token_guards_operations (s : Session) (h : s.key = none)
    (obj ident : String) (search : Option String) (trash : Bool)
    (extras : List (String × PyVal)) (r : ProcResult)
    (parse : String → Option JValue) :
    s.get obj ident r parse = (.error (.notLoggedIn (notLoggedInMsg "get")), 0)
  ∧ s.get_item ident r parse =
      (.error (.notLoggedIn (notLoggedInMsg "get_item")), 0)
  ∧ s.get_template ident r parse =
      (.error (.notLoggedIn (notLoggedInMsg "get_template")), 0)
  ∧ s.list obj search trash extras r parse =
      (.error (.notLoggedIn (notLoggedInMsg "list")), 0)
  ∧ (s.logout r).2.2 = 1 := by
  refine ⟨?_, ?_, ?_, ?_, logout_spawn_count s r⟩ <;>
    simp [Session.get, Session.get_item, Session.get_template, Session.list, h]

theorem absent_token_guards_operations_witness :
    sessionFresh.get "password" "xbox.com" procTok parseNone =
      (.error (.notLoggedIn (notLoggedInMsg "get")), 0)
  ∧ sessionFresh.get_item "xbox.com" procTok parseNone =
      (.error (.notLoggedIn (notLoggedInMsg "get_item")), 0)
  ∧ sessionFresh.get_template "xbox.com" procTok parseNone =
      (.error (.notLoggedIn (notLoggedInMsg "get_template")), 0)
  ∧ sessionFresh.list "items" none false [] procTok parseNone =
      (.error (.notLoggedIn (notLoggedInMsg "list")), 0)
  ∧ (sessionFresh.logout procTok).2.2 = 1 :=
  absent_token_guards_operations sessionFresh rfl "password" "xbox.com"
    none false [] procTok parseNone

/-- One keyword flag rendered as the code renders it: the pair
`--<key>, value` when the value is truthy, nothing otherwise. -/
def renderFlag (kv : String × PyVal) : List PyVal :=
  if kv.2.truthy then [.str ("--" ++ kv.1), kv.2] else []

/-- The accumulator loop of `Session.list` flattens to a `flatMap` of
`renderFlag`. -/
theorem listArgs_foldl_eq_flatMap (kwargs : List (String × PyVal))
    (acc : List PyVal) :
    kwargs.foldl
      (fun acc kv =>
        if kv.2.truthy then acc ++ [.str ("--" ++ kv.1), kv.2] else acc) acc
      = acc ++ kwargs.flatMap renderFlag := by
  induction kwargs generalizing acc with
  | nil => simp
  | cons kv rest ih =>
    rw [List.foldl_cons, ih, List.flatMap_cons]
    by_cases h : kv.2.truthy <;> simp [renderFlag, h]

/-- The argument list as the claim words it: `list <objectKind>`, then
`--search <search>` exactly when search is non-empty, then the trash flag
exactly when the boolean is true, then `--<key> <value>` for each extra
keyword flag whose value is truthy, falsy values omitted entirely. -/
def listArgsClaim (obj : String) (search : Option String) (trash : Bool)
    (extras : List (String × PyVal)) : List PyVal :=
  [.str "list", .str obj]
  ++ (match search with
      | some s => if s = "" then [] else [.str "--search", .str s]
      | Option.none => [])
  ++ (if trash then [.str "--trash", .bool true] else [])
  ++ extras.flatMap renderFlag

/-- C6: the argument list built by `Session.list` consists exactly of the
elements the claim describes (shown up to order of flag groups: the code
emits the extra flags before the search and trash flags, the claim lists
search and trash first), and the stdout of a successful call is always
parsed as JSON, asserting a sequence: a JSON array is returned, any other
JSON value trips the assertion, and an unparsable stdout raises the JSON
decode error. -/
theorem list_args_and_result (obj : String) (search : Option String)
    (trash : Bool) (extras : List (String × PyVal)) (s : Session) (k : String)
    (hk : s.key = some k) (r : ProcResult) (hrc : r.returncode = 0)
    (parse : String → Option JValue) :
    (Session.listArgs obj search trash extras).Perm
      (listArgsClaim obj search trash extras)
  ∧ (∀ xs, parse r.stdout = some (.arr xs) →
      s.list obj search trash extras r parse = (.ok xs, 1))
  ∧ (∀ fields, parse r.stdout = some (.obj fields) →
      s.list obj search trash extras r parse = (.error .assertionError, 1))
  ∧ (parse r.stdout = Option.none →
      s.list obj search trash extras r parse = (.error .jsonDecodeError, 1)) := by
  refine ⟨?_, fun xs hv => ?_, fun fields hv => ?_, fun hv => ?_⟩
  · have hs : Session.listArgs obj search trash extras
        = [.str "list", .str obj]
          ++ (extras.flatMap renderFlag
              ++ (renderFlag ("search", pyOptStr search)
                  ++ renderFlag ("trash", .bool trash))) := by
      simp only [Session.listArgs]
      rw [listArgs_foldl_eq_flatMap, List.flatMap_append, List.flatMap_cons,
        List.flatMap_cons]
      simp
    have hclaim : listArgsClaim obj search trash extras
        = [.str "list", .str obj]
          ++ ((renderFlag ("search", pyOptStr search)
                ++ renderFlag ("trash", .bool trash))
              ++ extras.flatMap renderFlag) := by
      cases search with
      | none =>
        cases trash <;>
          simp [listArgsClaim, renderFlag, pyOptStr, PyVal.truthy]
      | some sVal =>
        by_cases h : sVal = "" <;> cases trash <;>
          simp [listArgsClaim, renderFlag, pyOptStr, PyVal.truthy, h]
    rw [hs, hclaim]
    exact List.Perm.append_left _ List.perm_append_comm
  · simp [Session.list, Session.call, hk, hrc, hv]
  · simp [Session.list, Session.call, hk, hrc, hv]
  · simp [Session.list, Session.call, hk, hrc, hv]

theorem list_args_and_result_witness :
    (Session.listArgs "items" (some "amazon") false [("folderid", .str "1234")]).Perm
      (listArgsClaim "items" (some "amazon") false [("folderid", .str "1234")])
  ∧ sessionActive.list "items" (some "amazon") false [("folderid", .str "1234")]
      procExitOk parseArr = (.ok [], 1) :=
  ⟨(list_args_and_result "items" (some "amazon") false [("folderid", .str "1234")]
      sessionActive "session_key" rfl procExitOk rfl parseArr).1,
   (list_args_and_result "items" (some "amazon") false [("folderid", .str "1234")]
      sessionActive "session_key" rfl procExitOk rfl parseArr).2.1 [] rfl⟩

/-- Predicate `keptKey tr`: the trace contains a successful login after which no
clearing logout occurs. -/
def keptKey (tr : List Event) : Prop :=
  ∃ pre e post, tr = pre ++ e :: post ∧ (∃ k, e.setsKey = some k) ∧
    ∀ e' ∈ post, e'.clears = false

/-- Cons characterization of `keptKey`. -/
theorem keptKey_cons (e : Event) (tr : List Event) :
    keptKey (e :: tr) ↔
      ((∃ k, e.setsKey = some k) ∧ ∀ e' ∈ tr, e'.clears = false)
      ∨ keptKey tr := by
  constructor
  · rintro ⟨pre, e', post, heq, hset, hpost⟩
    cases pre with
    | nil =>
      simp only [List.nil_append] at heq
      obtain ⟨rfl, rfl⟩ := List.cons.inj heq
      exact Or.inl ⟨hset, hpost⟩
    | cons p pre =>
      simp only [List.cons_append] at heq
      obtain ⟨rfl, rfl⟩ := List.cons.inj heq
      exact Or.inr ⟨pre, e', post, rfl, hset, hpost⟩
  · rintro (⟨hset, hpost⟩ | ⟨pre, e', post, heq, hset, hpost⟩)
    · exact ⟨[], e, tr, rfl, hset, hpost⟩
    · exact ⟨e :: pre, e', post, by rw [heq, List.cons_append], hset, hpost⟩

/-- The key after one event: a successful login stores its key, a clearing
logout clears, everything else leaves the key unchanged. -/
theorem stepEvent_key (s : Session) (e : Event) :
    (stepEvent s e).key =
      match e.setsKey with
      | some k => some k
      | Option.none => if e.clears then none else s.key := by
  cases e with
  | login r =>
    simp only [stepEvent, Session.login, Event.setsKey, Event.clears]
    cases h : classifyLogin r <;> simp
  | logout r =>
    simp only [stepEvent, Session.logout, Event.setsKey, Event.clears]
    by_cases h1 : containsSubstr r.stderr "not logged in" = true <;>
      by_cases h2 : r.returncode = 0 <;> simp [h1, h2]

/-- After running a trace, the key is present iff the trace kept a key or
the starting key was present and nothing in the trace clears. -/
theorem runEvents_key_ne_none (tr : List Event) : ∀ s : Session,
    ((runEvents s tr).key ≠ none ↔
      keptKey tr ∨ (s.key ≠ none ∧ ∀ e ∈ tr, e.clears = false)) := by
  induction tr with
  | nil =>
    intro s
    simp only [runEvents, List.foldl_nil]
    constructor
    · intro h
      exact Or.inr ⟨h, by intro e he; cases he⟩
    · rintro (⟨pre, e, post, heq, _, _⟩ | ⟨h, _⟩)
      · cases pre <;> simp at heq
      · exact h
  | cons e rest ih =>
    intro s
    have hrun : runEvents s (e :: rest) = runEvents (stepEvent s e) rest := rfl
    rw [hrun, ih (stepEvent s e), keptKey_cons, List.forall_mem_cons]
    have hk := stepEvent_key s e
    cases hset : e.setsKey with
    | some k =>
      have hk2 : (stepEvent s e).key = some k := by rw [hk, hset]
      constructor
      · rintro (hkept | ⟨_, hrest⟩)
        · exact Or.inl (Or.inr hkept)
        · exact Or.inl (Or.inl ⟨⟨k, rfl⟩, hrest⟩)
      · rintro ((⟨_, hrest⟩ | hkept) | ⟨_, _, hrest⟩)
        · exact Or.inr ⟨by rw [hk2]; exact Option.some_ne_none k, hrest⟩
        · exact Or.inl hkept
        · exact Or.inr ⟨by rw [hk2]; exact Option.some_ne_none k, hrest⟩
    | none =>
      by_cases hc : e.clears = true
      · have hk2 : (stepEvent s e).key = none := by rw [hk, hset]; simp [hc]
        constructor
        · rintro (hkept | ⟨hne, _⟩)
          · exact Or.inl (Or.inr hkept)
          · exact absurd hk2 hne
        · rintro ((⟨⟨k, hcontra⟩, _⟩ | hkept) | ⟨_, hcfalse, _⟩)
          · exact Option.noConfusion hcontra
          · exact Or.inl hkept
          · simp [hc] at hcfalse
      · have hcf : e.clears = false := by simpa using hc
        have hk2 : (stepEvent s e).key = s.key := by rw [hk, hset]; simp [hcf]
        constructor
        · rintro (hkept | ⟨hne, hrest⟩)
          · exact Or.inl (Or.inr hkept)
          · exact Or.inr ⟨by rw [← hk2]; exact hne, hcf, hrest⟩
        · rintro ((⟨⟨k, hcontra⟩, _⟩ | hkept) | ⟨hne, _, hrest⟩)
          · exact Option.noConfusion hcontra
          · exact Or.inl hkept
          · exact Or.inr ⟨by rw [hk2]; exact hne, hrest⟩

/-- C3 counterexample: after a successful login, a further login that fails
with a classified error (credential rejection) leaves the previously stored
token in place — the token is present, not absent/cleared. -/
theorem failed_login_keeps_stale_key :
    (classifyLogin procIncorrect).isSuccess = false
  ∧ (runEvents sessionFresh [Event.login procTok, Event.login procIncorrect]).key
      = some "session_key" :=
  ⟨by decide, by decide⟩

/-- C3 amended: over every sequence of login/logout operations on a fresh
session, the token is present iff some login succeeded and no logout has
since cleared it (by its success or `"not logged in"` recovery path);
a login that fails with a classified error leaves the session — and its
token — unchanged, rather than clearing it. -/
theorem session_key_iff_uncleared_login :
    (∀ tr : List Event, (runEvents sessionFresh tr).key ≠ none ↔ keptKey tr)
  ∧ (∀ (s : Session) (r : ProcResult),
      (classifyLogin r).isSuccess = false → (s.login r).2 = s) := by
  constructor
  · intro tr
    rw [runEvents_key_ne_none tr sessionFresh]
    simp [sessionFresh]
  · intro s r h
    unfold Session.login
    cases hc : classifyLogin r <;> simp_all [LoginResult.isSuccess]

theorem session_key_iff_uncleared_login_witness :
    ((runEvents sessionFresh [Event.login procTok]).key ≠ none ↔
      keptKey [Event.login procTok])
  ∧ (sessionFresh.login procIncorrect).2 = sessionFresh :=
  ⟨session_key_iff_uncleared_login.1 [Event.login procTok],
   session_key_iff_uncleared_login.2 sessionFresh procIncorrect (by decide)⟩

end BwBindings
